import Mathlib

/-!
Verification of the command interpretation and execution pipeline of the
virtual-assistant repository (src/command_processor.py and
src/task_handlers.py), as a shallow embedding in Lean 4.

The embedding follows the Python source closely:
* Python string primitives (`str.strip`, `str.lower`, `str.split`) are
  reproduced over `List Char` with Python's whitespace set.
* The regex dispatch table of `CommandProcessor._setup_command_patterns`
  is embedded as a list of (intent name, regex) pairs in registration
  order (Python dicts preserve insertion order), with a small backtracking
  regex matcher covering exactly the constructs those patterns use
  (`re.match` semantics, `re.IGNORECASE`, greedy `+`, `?`, alternation,
  one capturing group, `$` end anchor).
* Side-effecting handlers of `TaskHandler` are embedded as pure functions
  from an explicit configuration / filesystem state to a result message
  plus the new state and a trace of spawned external commands.
-/

/-! ## Python string primitives -/

/-- Python's `str.isspace` character set used by `str.strip()` and
`str.split()` (space, tab, newline, carriage return, vertical tab,
form feed). -/
def pyIsSpace (c : Char) : Bool :=
  c = ' ' || c = '\t' || c = '\n' || c = '\r' || c = '\x0b' || c = '\x0c'

/-- Drop, from both ends of a character list, the characters satisfying
`p` (the semantics of Python's `str.strip` family). -/
def dropAround (p : Char → Bool) (cs : List Char) : List Char :=
  ((cs.dropWhile p).reverse.dropWhile p).reverse

/-- Python `s.strip()` — remove surrounding whitespace. -/
def pyStrip (s : String) : String :=
  String.mk (dropAround pyIsSpace s.data)

/-- Python `s.strip('"\'')` — remove surrounding double/single quote
characters. -/
def pyStripQuotes (s : String) : String :=
  String.mk (dropAround (fun c => c = '"' || c = '\'') s.data)

/-- Python `s.lower()` (ASCII fragment, which is all the pipeline's
pattern text uses). -/
def pyLower (s : String) : String :=
  String.mk (s.data.map Char.toLower)

/-- Python `s.split()` with no argument: split on runs of whitespace,
no empty fields. -/
def pySplitAux : List Char → List Char → List String
  | [], acc => if acc.isEmpty then [] else [String.mk acc.reverse]
  | c :: cs, acc =>
    if pyIsSpace c then
      if acc.isEmpty then pySplitAux cs []
      else String.mk acc.reverse :: pySplitAux cs []
    else pySplitAux cs (c :: acc)

/-- Python `s.split()` (whitespace split, empty fields dropped). -/
def pySplit (s : String) : List String :=
  pySplitAux s.data []

/-! ## A small regex matcher

Covers exactly the constructs appearing in
`CommandProcessor._setup_command_patterns`: literal text, `\s+`, `.+`,
`X?`, alternation, a capturing group, and the `$` end anchor.  `re.match`
anchors at the start of the string only, so a pattern without `$` may
match a proper prefix.  `re.IGNORECASE` is modelled by comparing
characters through `Char.toLower`. -/

inductive Regex where
  | eps : Regex
  | lit : String → Regex
  | wsPlus : Regex
  | dotPlus : Regex
  | qmark : Regex → Regex
  | grp : Regex → Regex
  | alt : Regex → Regex → Regex
  | cat : Regex → Regex → Regex
  | eol : Regex
deriving Repr, DecidableEq

/-- Case-insensitive literal match: strip `pat` from the front of `s`,
comparing through `Char.toLower`. -/
def stripCI : List Char → List Char → Option (List Char)
  | [], s => some s
  | _ :: _, [] => none
  | p :: ps, c :: cs => if c.toLower = p.toLower then stripCI ps cs else none

/-- Length of the longest prefix of `cs` whose characters satisfy `p`. -/
def countWhile (p : Char → Bool) : List Char → Nat
  | [] => 0
  | c :: cs => if p c then countWhile p cs + 1 else 0

/-- The suffixes left after consuming `k` characters, for
`k = m, m-1, ..., 1` — the greedy (longest-first) backtracking order of a
`+` repetition allowed to consume at most `m` characters. -/
def greedySuffixes (cs : List Char) (m : Nat) : List (List Char) :=
  (List.range m).map (fun i => cs.drop (m - i))

/-- All ways a regex can match a prefix of the input, in Python's
backtracking priority order.  Each entry is (captured groups in order,
remaining input).  `re.match` corresponds to the head of this list. -/
def reRuns : Regex → List Char → List (List String × List Char)
  | .eps, s => [([], s)]
  | .lit l, s =>
    match stripCI l.data s with
    | some rest => [([], rest)]
    | none => []
  | .wsPlus, s => (greedySuffixes s (countWhile pyIsSpace s)).map (fun r => ([], r))
  | .dotPlus, s => (greedySuffixes s (countWhile (fun c => c ≠ '\n') s)).map (fun r => ([], r))
  | .qmark r, s => reRuns r s ++ [([], s)]
  | .grp r, s =>
    (reRuns r s).map (fun pr => (String.mk (s.take (s.length - pr.2.length)) :: pr.1, pr.2))
  | .alt r1 r2, s => reRuns r1 s ++ reRuns r2 s
  | .cat r1 r2, s =>
    (reRuns r1 s).flatMap (fun pr1 =>
      (reRuns r2 pr1.2).map (fun pr2 => (pr1.1 ++ pr2.1, pr2.2)))
  | .eol, s => if s.isEmpty then [([], [])] else []

/-- Python `pattern.match(s)` followed by `.groups()`: `none` when the
pattern does not match at the start of `s`, otherwise the captured
groups of the highest-priority match. -/
def reMatch (r : Regex) (s : String) : Option (List String) :=
  ((reRuns r s.data).head?).map Prod.fst

/-- Sequence a list of regexes (helper for transcribing the patterns). -/
def rseq (rs : List Regex) : Regex :=
  rs.foldr Regex.cat Regex.eps

/-- Alternation over a list (helper for transcribing `(a|b|...)`). -/
def ralt : List Regex → Regex
  | [] => Regex.eps
  | [r] => r
  | r :: rs => Regex.alt r (ralt rs)

/-! ## The pattern registry

`CommandProcessor._setup_command_patterns` (command_processor.py lines
39-83).  The Python `self.patterns` dict preserves insertion order, and
`_parse_command` iterates it in that order, so the registry is a list in
registration order.  Each regex below is a transcription of the Python
pattern string given in its comment; all are compiled with
`re.IGNORECASE`. -/

def commandPatterns : List (String × Regex) := [
  -- 'open_app': r'^open\s+(.+)$'
  ("open_app", rseq [.lit "open", .wsPlus, .grp .dotPlus, .eol]),
  -- 'close_app': r'^close\s+(.+)$'
  ("close_app", rseq [.lit "close", .wsPlus, .grp .dotPlus, .eol]),
  -- 'system_control': r'^(shutdown|restart|reboot|lock|logout)$'
  ("system_control", rseq [.grp (ralt [.lit "shutdown", .lit "restart", .lit "reboot", .lit "lock", .lit "logout"]), .eol]),
  -- 'volume': r'^volume\s+(up|down|mute|unmute)$'
  ("volume", rseq [.lit "volume", .wsPlus, .grp (ralt [.lit "up", .lit "down", .lit "mute", .lit "unmute"]), .eol]),
  -- 'open_file': r'^open\s+file\s+(.+)$'
  ("open_file", rseq [.lit "open", .wsPlus, .lit "file", .wsPlus, .grp .dotPlus, .eol]),
  -- 'create_file': r'^create\s+file\s+(.+)$'
  ("create_file", rseq [.lit "create", .wsPlus, .lit "file", .wsPlus, .grp .dotPlus, .eol]),
  -- 'delete_file': r'^delete\s+file\s+(.+)$'
  ("delete_file", rseq [.lit "delete", .wsPlus, .lit "file", .wsPlus, .grp .dotPlus, .eol]),
  -- 'search_files': r'^search\s+(.+)$'
  ("search_files", rseq [.lit "search", .wsPlus, .grp .dotPlus, .eol]),
  -- 'web_search': r'^search\s+(.+)$'
  ("web_search", rseq [.lit "search", .wsPlus, .grp .dotPlus, .eol]),
  -- 'open_website': r'^open\s+website\s+(.+)$'
  ("open_website", rseq [.lit "open", .wsPlus, .lit "website", .wsPlus, .grp .dotPlus, .eol]),
  -- 'open_url': r'^https?://.+'   (no $: prefix match)
  ("open_url", rseq [.lit "http", .qmark (.lit "s"), .lit "://", .dotPlus]),
  -- 'time': r'^time$'
  ("time", rseq [.lit "time", .eol]),
  -- 'date': r'^date$'
  ("date", rseq [.lit "date", .eol]),
  -- 'cpu_usage': r'^cpu\s+usage$'
  ("cpu_usage", rseq [.lit "cpu", .wsPlus, .lit "usage", .eol]),
  -- 'memory_usage': r'^memory\s+usage$'
  ("memory_usage", rseq [.lit "memory", .wsPlus, .lit "usage", .eol]),
  -- 'disk_usage': r'^disk\s+usage$'
  ("disk_usage", rseq [.lit "disk", .wsPlus, .lit "usage", .eol]),
  -- 'system_info': r'^system\s+info$'
  ("system_info", rseq [.lit "system", .wsPlus, .lit "info", .eol]),
  -- 'weather': r'^weather$'
  ("weather", rseq [.lit "weather", .eol]),
  -- 'help': r'^(help|\?)$'
  ("help", rseq [.grp (ralt [.lit "help", .lit "?"]), .eol]),
  -- 'version': r'^version$'
  ("version", rseq [.lit "version", .eol]),
  -- 'volume_up': r'^volume\s+up$'
  ("volume_up", rseq [.lit "volume", .wsPlus, .lit "up", .eol]),
  -- 'volume_down': r'^volume\s+down$'
  ("volume_down", rseq [.lit "volume", .wsPlus, .lit "down", .eol]),
  -- 'volume_mute': r'^volume\s+mute$'
  ("volume_mute", rseq [.lit "volume", .wsPlus, .lit "mute", .eol]),
  -- 'volume_unmute': r'^volume\s+unmute$'
  ("volume_unmute", rseq [.lit "volume", .wsPlus, .lit "unmute", .eol])
]

/-- The `for cmd_type, pattern in self.compiled_patterns.items()` loop of
`CommandProcessor._parse_command` (lines 126-134): first matching entry
wins. -/
def firstMatch : List (String × Regex) → String → Option (String × List String)
  | [], _ => none
  | (ty, r) :: rest, s =>
    match reMatch r s with
    | some gs => some (ty, gs)
    | none => firstMatch rest s

/-- `CommandProcessor._parse_command` (lines 116-138): returns
(command type, params).  Python's `match.groups() if match.groups() else
None` turns an empty group tuple into `None`, embedded as `Option`. -/
def parseCommand (s : String) : String × Option (List String) :=
  match firstMatch commandPatterns s with
  | some (ty, gs) => (ty, if gs.isEmpty then none else some gs)
  | none => ("unknown", none)

/-! ## Action executor state model

Handlers are embedded as pure functions.  External side effects
(subprocess launches, file removal/creation) are made explicit: a
handler returns its result message together with the list of external
commands it spawned and/or the updated filesystem.  The filesystem is an
association list from absolute path to file contents; `os.path.exists`
is membership of the path. -/

/-- An external command spawned via `subprocess.run`/`subprocess.Popen`
(argv list). -/
structure Spawned where
  argv : List String
deriving Repr, DecidableEq

/-- The configuration consumed by the executor:
`config_manager.get('commands.confirm_dangerous', True)`. -/
structure Config where
  confirmDangerous : Bool
deriving Repr, DecidableEq

/-- Filesystem model: association list path → contents. -/
def Fs := List (String × String)

/-- `os.path.exists` on the filesystem model. -/
def pathExists (fs : Fs) (p : String) : Bool :=
  fs.any (fun e => e.1 = p)

/-- Whether the first list is a prefix of the second (used for the
path-prefix tests below). -/
def startsWithChars : List Char → List Char → Bool
  | [], _ => true
  | _ :: _, [] => false
  | a :: as, b :: bs => a = b && startsWithChars as bs

/-- `os.path.expanduser`: a leading `~` (alone or followed by `/`) is
replaced by the home directory; anything else is returned unchanged
(the `~user` form is not used by the pipeline and is not modelled). -/
def expanduser (home : String) (p : String) : String :=
  if p = "~" then home
  else if startsWithChars ['~', '/'] p.data then home ++ (p.drop 1)
  else p

/-- `os.path.dirname(p)` is non-empty exactly when `p` contains a path
separator (POSIX), which is all `_handle_create_file` asks of it. -/
def hasDirname (p : String) : Bool :=
  p.data.contains '/'

/-- `os.path.join(home, fn)` for the create-file handler: `fn` absolute
wins, otherwise `home/fn`. -/
def joinPath (home fn : String) : String :=
  if startsWithChars ['/'] fn.data then fn else home ++ "/" ++ fn

/-- `TaskHandler._handle_system_control` (task_handlers.py lines
184-216): result message plus spawned subprocesses. -/
def handleSystemControl (cfg : Config) (action : String) : String × List Spawned :=
  let action := pyStrip (pyLower action)
  if action = "shutdown" then
    if cfg.confirmDangerous then
      ("Shutdown command requires confirmation in settings", [])
    else
      ("Shutting down system...", [⟨["shutdown", "now"]⟩])
  else if action = "restart" || action = "reboot" then
    if cfg.confirmDangerous then
      ("Restart command requires confirmation in settings", [])
    else
      ("Restarting system...", [⟨["reboot"]⟩])
  else if action = "lock" then
    ("Screen locked", [⟨["gnome-screensaver-command", "-l"]⟩])
  else if action = "logout" then
    ("Logging out...", [⟨["gnome-session-quit", "--logout"]⟩])
  else
    ("Unknown system control action: " ++ action, [])

/-- `TaskHandler._handle_volume_control` (task_handlers.py lines
218-246).  The handler receives only the command type — never the
captured direction — and tests `cmd_type in ['volume_up', 'volume']`
first, so type `'volume'` always takes the volume-up branch. -/
def handleVolumeControl (cmdType : String) : String × List Spawned :=
  if cmdType = "volume_up" || cmdType = "volume" then
    ("Volume increased", [⟨["amixer", "sset", "Master", "5%+"]⟩])
  else if cmdType = "volume_down" then
    ("Volume decreased", [⟨["amixer", "sset", "Master", "5%-"]⟩])
  else if cmdType = "volume_mute" || cmdType = "volume" then
    ("Volume muted", [⟨["amixer", "sset", "Master", "mute"]⟩])
  else if cmdType = "volume_unmute" then
    ("Volume unmuted", [⟨["amixer", "sset", "Master", "unmute"]⟩])
  else
    ("Unknown volume command: " ++ cmdType, [])

/-- `TaskHandler._handle_create_file` (task_handlers.py lines 271-295):
returns the result message and the filesystem after the call. -/
def handleCreateFile (home : String) (fs : Fs) (filename : String) : String × Fs :=
  let fn := pyStripQuotes (pyStrip filename)
  if fn = "" then
    ("Please specify a filename", fs)
  else
    let filePath := if hasDirname fn then expanduser home fn else joinPath home fn
    if pathExists fs filePath then
      ("File already exists: " ++ filePath, fs)
    else
      ("Created file: " ++ filePath, (filePath, "") :: fs)

/-- The path at which `_handle_create_file` operates: the filename is
stripped of whitespace and surrounding quotes; a filename containing a
separator gets user-home expansion, a bare filename is joined onto the
home directory (task_handlers.py lines 274-283). -/
def createTarget (home filename : String) : String :=
  if hasDirname (pyStripQuotes (pyStrip filename)) then
    expanduser home (pyStripQuotes (pyStrip filename))
  else
    joinPath home (pyStripQuotes (pyStrip filename))

/-- `TaskHandler._handle_delete_file` (task_handlers.py lines 297-318):
returns the result message and the filesystem after the call.  Note the
order of the checks: existence is tested before the
`commands.confirm_dangerous` gate. -/
def handleDeleteFile (cfg : Config) (home : String) (fs : Fs) (filePath : String) :
    String × Fs :=
  let p := pyStripQuotes (pyStrip filePath)
  if p = "" then
    ("Please specify a file path", fs)
  else
    let p := expanduser home p
    if ¬ pathExists fs p then
      ("File not found: " ++ p, fs)
    else if cfg.confirmDangerous then
      ("File deletion requires confirmation in settings", fs)
    else
      ("Deleted file: " ++ p, fs.filter (fun e => e.1 ≠ p))

/-! ## Worker / failure-channel model

`TaskHandler.execute_command` (lines 48-108) wraps its whole routing
body in `try/except Exception` and, on a fault, RETURNS the string
`f"Error executing command: {e}"` instead of raising.
`CommandWorker.run` (command_processor.py lines 314-321) emits whatever
`execute_command` returns on the `result_ready` signal and emits on
`error_occurred` only if `execute_command` itself raises.  The handler
body's outcome is abstracted as either a normal result or a raised
fault. -/

/-- Outcome of a Python call: normal return or raised exception text. -/
inductive PyOutcome where
  | ok : String → PyOutcome
  | exn : String → PyOutcome
deriving Repr, DecidableEq

/-- The `try/except` boundary of `TaskHandler.execute_command`
(task_handlers.py lines 59-108) applied to the outcome of its routing
body: a fault is converted to a normally returned error string. -/
def executeCommandBoundary (body : PyOutcome) : PyOutcome :=
  match body with
  | .ok r => .ok r
  | .exn e => .ok ("Error executing command: " ++ e)

/-- The two signals a `CommandWorker` can emit. -/
inductive WorkerSignal where
  | resultReady : String → WorkerSignal
  | errorOccurred : String → WorkerSignal
deriving Repr, DecidableEq

/-- `CommandWorker.run` (command_processor.py lines 314-321): emit the
returned string on `result_ready`; emit on `error_occurred` only when
`execute_command` raises. -/
def workerRun (body : PyOutcome) : WorkerSignal :=
  match executeCommandBoundary body with
  | .ok r => .resultReady r
  | .exn e => .errorOccurred e

/-! ## Suggestion engine and unknown-command path -/

/-- `CommandProcessor._get_command_suggestions` (command_processor.py
lines 231-268): inspect the first whitespace token of the text against
the fixed misspelling chain, then cap the result at 3. -/
def getCommandSuggestions (t : String) : List String :=
  let commandWords := pySplit t
  let suggestions : List String :=
    match commandWords with
    | [] => []
    | firstWord :: _ =>
      if firstWord = "opn" || firstWord = "ope" then ["open <application>"]
      else if firstWord = "cls" || firstWord = "cloe" then ["close <application>"]
      else if firstWord = "shut" || firstWord = "shutdwn" then ["shutdown"]
      else if firstWord = "rest" || firstWord = "restrt" then ["restart"]
      else if firstWord = "serch" || firstWord = "serh" then ["search <query>"]
      else if firstWord = "tim" then ["time"]
      else if firstWord = "dat" then ["date"]
      else []
  suggestions.take 3

/-- The misspelling table of `_get_command_suggestions`, as an ordered
table (keys, suggestion) — used to state that the chain of `elif`s
behaves as an in-order table lookup. -/
def suggestionTable : List (List String × String) := [
  (["opn", "ope"], "open <application>"),
  (["cls", "cloe"], "close <application>"),
  (["shut", "shutdwn"], "shutdown"),
  (["rest", "restrt"], "restart"),
  (["serch", "serh"], "search <query>"),
  (["tim"], "time"),
  (["dat"], "date")
]

/-- The first whitespace-separated token of the text, if any. -/
def firstToken (t : String) : Option String :=
  (pySplit t).head?

/-- Specification-side reading of §4.3: match the first token against
the fixed table, return matches in table order, capped at 3, empty when
no entry matches. -/
def suggestionsSpec (t : String) : List String :=
  ((suggestionTable.filter (fun e =>
      match firstToken t with
      | some w => decide (w ∈ e.1)
      | none => false)).map Prod.snd).take 3

/-- `CommandProcessor._handle_unknown_command` (lines 214-229): the
message emitted on the failure signal for an unknown command. -/
def unknownMessage (t : String) : String :=
  let suggestions := getCommandSuggestions t
  if ¬ suggestions.isEmpty then
    "Unknown command '" ++ t ++ "'. Did you mean:\n" ++ String.intercalate "\n" suggestions
  else
    "Unknown command '" ++ t ++ "'. Type 'help' for available commands."

/-! ## The dispatcher entry point -/

/-- Outcome of `CommandProcessor.process_command`: either the
`command_failed` signal is emitted immediately with a message (no worker
thread spawned), or a `CommandWorker` is spawned for the parsed command
type and params. -/
inductive ProcessOutcome where
  | failed : String → ProcessOutcome
  | spawned : String → Option (List String) → ProcessOutcome
deriving Repr, DecidableEq

/-- `CommandProcessor.process_command` (command_processor.py lines
85-110): normalize (`strip().lower()`), reject empty input, parse,
handle unknown commands inline, otherwise spawn a worker. -/
def processCommand (s : String) : ProcessOutcome :=
  let t := pyLower (pyStrip s)
  if t = "" then .failed "Empty command"
  else
    let parsed := parseCommand t
    if parsed.1 = "unknown" then .failed (unknownMessage t)
    else .spawned parsed.1 parsed.2

/-! ## Cleanup model -/

/-- A tracked worker thread: identity plus whether `isRunning()` is
true when `cleanup` inspects it. -/
structure Worker where
  wid : Nat
  running : Bool
deriving Repr, DecidableEq

/-- Observable actions of `CommandProcessor.cleanup` on one worker. -/
inductive CleanupEvent where
  | term : Nat → CleanupEvent
  | waitMs : Nat → Nat → CleanupEvent
  | deleteLater : Nat → CleanupEvent
deriving Repr, DecidableEq

/-- Body of the `for worker in self.active_workers[:]` loop
(command_processor.py lines 197-206) for one worker: `terminate()` and
`wait(1000)` when running, then `deleteLater()`. -/
def cleanupWorker (w : Worker) : List CleanupEvent :=
  (if w.running then [.term w.wid, .waitMs w.wid 1000] else []) ++ [.deleteLater w.wid]

/-- The cleanup loop: iterate over a snapshot of `active_workers`,
emitting each worker's events and removing it from the live list. -/
def cleanupLoop : List Worker → List Worker → List Worker × List CleanupEvent
  | [], active => (active, [])
  | w :: rest, active =>
    let evs := cleanupWorker w
    let next := cleanupLoop rest (active.erase w)
    (next.1, evs ++ next.2)

/-- `CommandProcessor.cleanup` (command_processor.py lines 191-212):
run the loop over a copy of the live list, then
`self.active_workers.clear()`.  Returns the final live list and the
event trace. -/
def cleanup (workers : List Worker) : List Worker × List CleanupEvent :=
  let looped := cleanupLoop workers workers
  ([], looped.2)

/-! ## Helper lemmas -/

/-- If no pattern of `pre` matches, the first-match scan skips `pre`. -/
theorem firstMatch_append (pre rest : List (String × Regex)) (s : String)
    (h : ∀ p ∈ pre, reMatch p.2 s = none) :
    firstMatch (pre ++ rest) s = firstMatch rest s := by
  induction pre with
  | nil => rfl
  | cons hd tl ih =>
    have hhd : reMatch hd.2 s = none := h hd (List.mem_cons_self hd tl)
    have htl : ∀ p ∈ tl, reMatch p.2 s = none := fun p hp => h p (List.mem_cons_of_mem hd hp)
    obtain ⟨ty, r⟩ := hd
    simp only [List.cons_append, firstMatch, hhd]
    exact ih htl

/-- The event trace of the cleanup loop does not depend on the live
list: it is the concatenation of each snapshot entry's events. -/
theorem cleanupLoop_events (snapshot : List Worker) :
    ∀ active, (cleanupLoop snapshot active).2 = snapshot.flatMap cleanupWorker := by
  induction snapshot with
  | nil => intro active; rfl
  | cons w rest ih =>
    intro active
    simp only [cleanupLoop, List.flatMap_cons, ih]

/-- An unknown-command message is never the empty-command message (it is
strictly longer than `"Empty command"`). -/
theorem unknownMessage_ne_empty (t : String) : unknownMessage t ≠ "Empty command" := by
  have hlen : ∀ x y : String, ("Unknown command '" ++ x ++ y).length ≠ ("Empty command" : String).length := by
    intro x y
    simp only [String.length_append]
    have h17 : ("Unknown command '" : String).length = 17 := rfl
    have h13 : ("Empty command" : String).length = 13 := rfl
    omega
  intro h
  simp only [unknownMessage] at h
  split at h
  · exact hlen t ("'. Did you mean:\n" ++ String.intercalate "\n" (getCommandSuggestions t))
      (by rw [← String.append_assoc, ← h])
  · exact hlen t "'. Type 'help' for available commands." (by rw [← h])

/-- A file-not-found message is never the deletion-confirmation message
(they differ on their first 16 characters). -/
theorem notFound_ne_confirm (x : String) :
    "File not found: " ++ x ≠ "File deletion requires confirmation in settings" := by
  intro h
  have hd : ("File not found: " ++ x).data =
      ("File deletion requires confirmation in settings" : String).data :=
    congrArg String.data h
  rw [String.data_append] at hd
  have h16 := congrArg (fun l => l.take ("File not found: " : String).data.length) hd
  simp only [List.take_left] at h16
  exact absurd h16 (by decide)

/-! ## Claims -/

/-- C1 (counterexample): the canonical example of the registered intent
`open_file`, the string `"open file /tmp/x"`, is NOT classified to
`open_file`: the earlier-registered `open_app` pattern `^open\s+(.+)$`
matches it first, so `_parse_command` returns `open_app` with the whole
tail `"file /tmp/x"` as the captured parameter. -/
theorem c1_counterexample :
    parseCommand "open file /tmp/x" = ("open_app", some ["file /tmp/x"]) ∧
    ("open_app" : String) ≠ "open_file" := by
  decide

/-- C1 (amended): a string exactly matching an intent's canonical
example classifies to that intent with that pattern's captured groups
for every registered intent EXCEPT the seven whose canonical example is
also matched by an earlier-registered pattern: `open_file`,
`open_website` (shadowed by `open_app`), `web_search` (shadowed by
`search_files`), and `volume_up`/`volume_down`/`volume_mute`/
`volume_unmute` (shadowed by `volume`); those seven classify to the
earlier intent instead. -/
theorem c1_canonical_examples :
    ["open firefox", "close firefox", "shutdown", "volume up", "create file notes.txt",
     "delete file notes.txt", "search report", "https://example.com", "time", "date",
     "cpu usage", "memory usage", "disk usage", "system info", "weather", "help",
     "version", "open file /tmp/x", "open website example.com", "search python",
     "volume down", "volume mute", "volume unmute"].map parseCommand =
    [("open_app", some ["firefox"]), ("close_app", some ["firefox"]),
     ("system_control", some ["shutdown"]), ("volume", some ["up"]),
     ("create_file", some ["notes.txt"]), ("delete_file", some ["notes.txt"]),
     ("search_files", some ["report"]), ("open_url", none), ("time", none),
     ("date", none), ("cpu_usage", none), ("memory_usage", none), ("disk_usage", none),
     ("system_info", none), ("weather", none), ("help", some ["help"]),
     ("version", none), ("open_app", some ["file /tmp/x"]),
     ("open_app", some ["website example.com"]), ("search_files", some ["python"]),
     ("volume", some ["down"]), ("volume", some ["mute"]), ("volume", some ["unmute"])] := by
  decide

/-- C2: classification scans the registered patterns in registration
order and the first matching pattern wins: whenever the table decomposes
as `pre ++ (ty, r) :: post` with nothing in `pre` matching `s` and `r`
matching `s`, the parsed intent is `ty`; in particular `"search python"`
resolves to `search_files` (registered before `web_search`), with the
captured query. -/
theorem c2_first_match_wins :
    (∀ (s ty : String) (r : Regex) (pre post : List (String × Regex)),
      commandPatterns = pre ++ (ty, r) :: post →
      (∀ p ∈ pre, reMatch p.2 s = none) →
      (reMatch r s).isSome = true →
      (parseCommand s).1 = ty) ∧
    parseCommand "search python" = ("search_files", some ["python"]) := by
  constructor
  · intro s ty r pre post htab hpre hm
    obtain ⟨gs, hgs⟩ := Option.isSome_iff_exists.mp hm
    unfold parseCommand
    rw [htab, firstMatch_append pre _ s hpre]
    simp [firstMatch, hgs]
  · decide

/-- C2 witness: instantiated at `"search python"` and the
`search_files` entry (index 7 of the registry). -/
theorem c2_witness : (parseCommand "search python").1 = "search_files" :=
  c2_first_match_wins.1 "search python" "search_files"
    (rseq [.lit "search", .wsPlus, .grp .dotPlus, .eol])
    (commandPatterns.take 7) (commandPatterns.drop 8)
    (by decide) (by decide) (by decide)

/-- C4 (counterexample): a fault `"boom"` raised inside a handler is
caught and converted into the message `"Error executing command: boom"`,
but `CommandWorker.run` delivers that message on the `result_ready`
(success) signal, not on the `error_occurred` (failure) signal — the
claim's "delivered on the failure channel" is false. -/
theorem c4_counterexample :
    workerRun (PyOutcome.exn "boom") =
      WorkerSignal.resultReady "Error executing command: boom" ∧
    WorkerSignal.resultReady "Error executing command: boom" ≠
      WorkerSignal.errorOccurred "Error executing command: boom" := by
  decide

/-- C4 (amended): every fault raised inside a handler is caught at the
`execute_command` boundary and converted into a normally returned
message carrying the fault's description, so the fault never propagates
past the executor; the worker then delivers that message on the
`result_ready` (success) signal rather than the failure signal. -/
theorem c4_fault_caught_on_success_channel (e : String) :
    executeCommandBoundary (PyOutcome.exn e) =
      PyOutcome.ok ("Error executing command: " ++ e) ∧
    workerRun (PyOutcome.exn e) =
      WorkerSignal.resultReady ("Error executing command: " ++ e) :=
  ⟨rfl, rfl⟩

/-- C9: every input `volume <d>` with `d` one of up/down/mute/unmute is
classified to the intent `volume` (the later `volume_*` patterns are
shadowed), and the volume handler — which receives only the command
type, never the captured direction — takes the volume-up branch for
type `volume`, spawning `amixer sset Master 5%+`: every such command
raises the volume. -/
theorem c9_volume_always_up (d : String)
    (hd : d = "up" ∨ d = "down" ∨ d = "mute" ∨ d = "unmute") :
    parseCommand ("volume " ++ d) = ("volume", some [d]) ∧
    handleVolumeControl "volume" =
      ("Volume increased", [⟨["amixer", "sset", "Master", "5%+"]⟩]) := by
  rcases hd with h | h | h | h <;> subst h <;> exact ⟨by decide, by decide⟩

/-- C9 witness: instantiated at direction `"mute"` — even `volume mute`
raises the volume. -/
theorem c9_witness :
    parseCommand ("volume " ++ "mute") = ("volume", some ["mute"]) ∧
    handleVolumeControl "volume" =
      ("Volume increased", [⟨["amixer", "sset", "Master", "5%+"]⟩]) :=
  c9_volume_always_up "mute" (Or.inr (Or.inr (Or.inl rfl)))

/-- The `elif` chain of `_get_command_suggestions` behaves exactly as an
in-order lookup of the first whitespace token in the fixed misspelling
table, capped at 3 results, empty when no entry matches. -/
theorem getCommandSuggestions_eq_spec (t : String) :
    getCommandSuggestions t = suggestionsSpec t := by
  simp only [getCommandSuggestions, suggestionsSpec, firstToken]
  cases hws : pySplit t with
  | nil => decide
  | cons w rest =>
    simp only [List.head?]
    by_cases h1 : w = "opn"
    · subst h1; decide
    by_cases h2 : w = "ope"
    · subst h2; decide
    by_cases h3 : w = "cls"
    · subst h3; decide
    by_cases h4 : w = "cloe"
    · subst h4; decide
    by_cases h5 : w = "shut"
    · subst h5; decide
    by_cases h6 : w = "shutdwn"
    · subst h6; decide
    by_cases h7 : w = "rest"
    · subst h7; decide
    by_cases h8 : w = "restrt"
    · subst h8; decide
    by_cases h9 : w = "serch"
    · subst h9; decide
    by_cases h10 : w = "serh"
    · subst h10; decide
    by_cases h11 : w = "tim"
    · subst h11; decide
    by_cases h12 : w = "dat"
    · subst h12; decide
    simp [suggestionTable, h1, h2, h3, h4, h5, h6, h7, h8, h9, h10, h11, h12]

/-- C5: every input that is empty after trimming surrounding whitespace
makes `process_command` emit the failure signal with the empty-command
message without spawning a worker, and that message can never coincide
with an unknown-command message. -/
theorem c5_empty_input (s : String) (h : pyStrip s = "") :
    processCommand s = ProcessOutcome.failed "Empty command" ∧
    ∀ t, unknownMessage t ≠ "Empty command" := by
  refine ⟨?_, fun t => unknownMessage_ne_empty t⟩
  simp only [processCommand, h]
  decide

/-- C5 witness: instantiated at the all-spaces input `"   "`. -/
theorem c5_witness :
    pyStrip "   " = "" ∧ processCommand "   " = ProcessOutcome.failed "Empty command" :=
  ⟨by decide, (c5_empty_input "   " (by decide)).1⟩

/-- C6: when classification of the normalized text is `unknown` (and the
text is non-empty), `process_command` emits the failure signal carrying
the unknown-command message — which embeds the text and the suggestions
— without spawning a worker; and the suggestion function is exactly an
in-order first-token lookup in the fixed misspelling table, capped at 3
(so it is empty whenever no table entry matches). -/
theorem c6_unknown_no_spawn :
    (∀ s : String, (parseCommand (pyLower (pyStrip s))).1 = "unknown" →
      pyLower (pyStrip s) ≠ "" →
      processCommand s = ProcessOutcome.failed (unknownMessage (pyLower (pyStrip s)))) ∧
    (∀ t, getCommandSuggestions t = suggestionsSpec t) ∧
    (∀ t, (getCommandSuggestions t).length ≤ 3) := by
  refine ⟨?_, getCommandSuggestions_eq_spec, ?_⟩
  · intro s hu hne
    simp only [processCommand]
    rw [if_neg hne, if_pos hu]
  · intro t
    simp only [getCommandSuggestions]
    exact List.length_take_le _ _

/-- C6 witness: instantiated at the unknown input `"opn firefox"`. -/
theorem c6_witness :
    processCommand "opn firefox" =
      ProcessOutcome.failed (unknownMessage (pyLower (pyStrip "opn firefox"))) :=
  c6_unknown_no_spawn.1 "opn firefox" (by decide) (by decide)

/-- C3: with `commands.confirm_dangerous` true, the shutdown and
restart/reboot handlers spawn no subprocess and return the
confirmation-required message, and the delete-file handler leaves the
filesystem unchanged on every input — returning the
confirmation-required message whenever the resolved path exists. -/
theorem c3_dangerous_actions_gated (cfg : Config) (home : String)
    (h : cfg.confirmDangerous = true) :
    handleSystemControl cfg "shutdown" =
      ("Shutdown command requires confirmation in settings", []) ∧
    handleSystemControl cfg "restart" =
      ("Restart command requires confirmation in settings", []) ∧
    handleSystemControl cfg "reboot" =
      ("Restart command requires confirmation in settings", []) ∧
    ∀ (fs : Fs) (p : String),
      (handleDeleteFile cfg home fs p).2 = fs ∧
      (pyStripQuotes (pyStrip p) ≠ "" →
        pathExists fs (expanduser home (pyStripQuotes (pyStrip p))) = true →
        (handleDeleteFile cfg home fs p).1 =
          "File deletion requires confirmation in settings") := by
  obtain ⟨b⟩ := cfg
  have hb : b = true := h
  subst hb
  refine ⟨by decide, by decide, by decide, ?_⟩
  intro fs p
  constructor
  · simp only [handleDeleteFile]
    split_ifs <;> rfl
  · intro hne hex
    simp [handleDeleteFile, hne, hex]

/-- C3 witness: instantiated with the gate on, at a filesystem holding
one file and a deletion request for it. -/
theorem c3_witness :
    handleSystemControl ⟨true⟩ "shutdown" =
      ("Shutdown command requires confirmation in settings", []) ∧
    (handleDeleteFile ⟨true⟩ "/home/u" [("/home/u/x", "d")] "/home/u/x").2 =
      [("/home/u/x", "d")] ∧
    (handleDeleteFile ⟨true⟩ "/home/u" [("/home/u/x", "d")] "/home/u/x").1 =
      "File deletion requires confirmation in settings" :=
  ⟨(c3_dangerous_actions_gated ⟨true⟩ "/home/u" rfl).1,
   ((c3_dangerous_actions_gated ⟨true⟩ "/home/u" rfl).2.2.2 [("/home/u/x", "d")] "/home/u/x").1,
   ((c3_dangerous_actions_gated ⟨true⟩ "/home/u" rfl).2.2.2 [("/home/u/x", "d")] "/home/u/x").2
     (by decide) (by decide)⟩

/-- C7: the create-file handler resolves its target path (quote
trimming, then home expansion/joining); if a file already exists at the
target it returns the already-exists message and leaves the filesystem
— hence the existing file's contents — unchanged; only when no file
exists there does it create a new empty file at the target. -/
theorem c7_create_refuses_overwrite (home : String) (fs : Fs) (filename : String)
    (hne : pyStripQuotes (pyStrip filename) ≠ "") :
    (pathExists fs (createTarget home filename) = true →
      handleCreateFile home fs filename =
        ("File already exists: " ++ createTarget home filename, fs)) ∧
    (pathExists fs (createTarget home filename) = false →
      handleCreateFile home fs filename =
        ("Created file: " ++ createTarget home filename,
          (createTarget home filename, "") :: fs)) := by
  have htgt : (if hasDirname (pyStripQuotes (pyStrip filename)) then
      expanduser home (pyStripQuotes (pyStrip filename))
    else joinPath home (pyStripQuotes (pyStrip filename))) = createTarget home filename := rfl
  constructor <;> intro hex <;>
    · simp only [handleCreateFile, htgt]
      rw [if_neg hne]
      simp [hex]

/-- C7 witness: a home of `/h` with `a.txt` present — creating `a.txt`
is refused, creating `b.txt` succeeds as an empty file. -/
theorem c7_witness :
    handleCreateFile "/h" [("/h/a.txt", "z")] "a.txt" =
      ("File already exists: " ++ createTarget "/h" "a.txt", [("/h/a.txt", "z")]) ∧
    handleCreateFile "/h" [("/h/a.txt", "z")] "b.txt" =
      ("Created file: " ++ createTarget "/h" "b.txt",
        (createTarget "/h" "b.txt", "") :: [("/h/a.txt", "z")]) :=
  ⟨(c7_create_refuses_overwrite "/h" [("/h/a.txt", "z")] "a.txt" (by decide)).1 (by decide),
   (c7_create_refuses_overwrite "/h" [("/h/a.txt", "z")] "b.txt" (by decide)).2 (by decide)⟩

/-- C8: after `cleanup` returns the tracked live-worker set is empty,
whatever was outstanding, and every still-running worker received a
`terminate()` followed by a `wait(1000)` (the 1-second grace period). -/
theorem c8_cleanup_empties_live_set (workers : List Worker) :
    (cleanup workers).1 = [] ∧
    ∀ w ∈ workers, w.running = true →
      CleanupEvent.term w.wid ∈ (cleanup workers).2 ∧
      CleanupEvent.waitMs w.wid 1000 ∈ (cleanup workers).2 := by
  refine ⟨rfl, ?_⟩
  intro w hw hrun
  have hev : (cleanup workers).2 = workers.flatMap cleanupWorker := by
    simp only [cleanup, cleanupLoop_events]
  rw [hev]
  constructor <;> (rw [List.mem_flatMap]; exact ⟨w, hw, by simp [cleanupWorker, hrun]⟩)

/-- C8 witness: two outstanding workers, one running and one finished. -/
theorem c8_witness :
    (cleanup [⟨0, true⟩, ⟨1, false⟩]).1 = [] ∧
    CleanupEvent.term 0 ∈ (cleanup [⟨0, true⟩, ⟨1, false⟩]).2 :=
  ⟨(c8_cleanup_empties_live_set [⟨0, true⟩, ⟨1, false⟩]).1,
   ((c8_cleanup_empties_live_set [⟨0, true⟩, ⟨1, false⟩]).2 ⟨0, true⟩ (by decide) rfl).1⟩

/-- C10: the delete-file handler tests existence of the resolved path
before the `commands.confirm_dangerous` gate: a non-existent path gets
the file-not-found message (filesystem untouched) under any
configuration, and the confirmation-required message is only ever
returned when the resolved path exists. -/
theorem c10_not_found_before_gate (cfg : Config) (home : String) (fs : Fs) (p : String)
    (hne : pyStripQuotes (pyStrip p) ≠ "") :
    (pathExists fs (expanduser home (pyStripQuotes (pyStrip p))) = false →
      handleDeleteFile cfg home fs p =
        ("File not found: " ++ expanduser home (pyStripQuotes (pyStrip p)), fs)) ∧
    ((handleDeleteFile cfg home fs p).1 =
        "File deletion requires confirmation in settings" →
      pathExists fs (expanduser home (pyStripQuotes (pyStrip p))) = true) := by
  constructor
  · intro hnex
    simp [handleDeleteFile, hne, hnex]
  · intro hmsg
    by_cases hex : pathExists fs (expanduser home (pyStripQuotes (pyStrip p))) = true
    · exact hex
    · exfalso
      have hnex : pathExists fs (expanduser home (pyStripQuotes (pyStrip p))) = false :=
        Bool.eq_false_iff.mpr hex
      have hmsg2 : (handleDeleteFile cfg home fs p).1 =
          "File not found: " ++ expanduser home (pyStripQuotes (pyStrip p)) := by
        simp [handleDeleteFile, hne, hnex]
      exact notFound_ne_confirm _ (hmsg2 ▸ hmsg)

/-- C10 witness: with the gate ON and a path that does not exist, the
handler still answers file-not-found, not confirmation-required. -/
theorem c10_witness :
    handleDeleteFile ⟨true⟩ "/h" [] "/tmp/niet" =
      ("File not found: " ++ expanduser "/h" (pyStripQuotes (pyStrip "/tmp/niet")), []) :=
  (c10_not_found_before_gate ⟨true⟩ "/h" [] "/tmp/niet" (by decide)).1 (by decide)
